import Mathlib

/-!
Shallow embedding of the gobank HTTP JSON API (Go) and proofs about its
authentication and authorization behaviour.

The embedding follows the source: the JWT middleware `withJWTAuth`, the
token functions `createJWT` and `validateJWT` (together with the relevant
behaviour of the golang-jwt v4 library: keyfunc dispatch, HMAC signature
verification, and `MapClaims.Valid` checking the registered `exp`, `iat`
and `nbf` claims), the login handler `HandleLogin`, the request boundary
`makeHttpHandleFunc`, the id extraction `getID` over `strconv.Atoi`, the
`PostgresStore` operations over an account table, and the startup path of
`main` through `NewPostgresStore`.

The types file of the repository (declaring `Account`, `NewAccount`,
`ValidatePassword` and the JSON tags of `Account`) is not among the
available sources; those definitions are modelled from the spec and are
marked as such in their doc comments.

An ideal MAC models the token signature: the signature is the triple of
signing method, key and signed claim set, and verification succeeds exactly
when the token was signed with the same method, secret and claims.
-/

namespace GoBank

deriving instance DecidableEq for Except

/-- A claim value inside a JWT claim set.  JSON numbers decode to Go
float64 on the parsing side; integral values are modelled as Int. -/
inductive CVal where
  | num (n : Int)
  | str (s : String)
deriving DecidableEq, Repr

/-- Go jwt.MapClaims: an association of claim names to values. -/
abbrev MapClaims := List (String × CVal)

/-- Go map indexing on a claim set. -/
def claimLookup : MapClaims → String → Option CVal
  | [], _ => none
  | (k, v) :: rest, key => if k = key then some v else claimLookup rest key

/-- JWT signing methods relevant to the code: the HMAC family that the
validateJWT keyfunc accepts, plus representatives of the non-HMAC
algorithms a hostile token may declare in its header. -/
inductive SigningMethod where
  | HS256 | HS384 | HS512 | RS256 | ES256 | AlgNone
deriving DecidableEq, Repr

/-- The type switch `token.Method.(*jwt.SigningMethodHMAC)` performed by
the keyfunc inside validateJWT: true for the whole HMAC family. -/
def SigningMethod.isHMAC : SigningMethod → Bool
  | .HS256 | .HS384 | .HS512 => true
  | _ => false

/-- A parsed JWT.  The signature of an ideal MAC is modelled as the triple
(method, key, signed claims); verification succeeds exactly when the token
was signed with the same method, secret and claim set. -/
structure Token where
  method : SigningMethod
  claims : MapClaims
  sig : SigningMethod × String × MapClaims
deriving DecidableEq, Repr

/-- os.Getenv: yields the empty string when the variable is unset. -/
def getenv (env : String → Option String) (k : String) : String :=
  (env k).getD ""

/-- An environment with one variable removed. -/
def eraseKey (env : String → Option String) (k : String) : String → Option String :=
  fun k2 => if k2 = k then none else env k2

/-- jwt.MapClaims.Valid at unix time now, as run inside jwt.Parse of
golang-jwt v4: the registered claims exp, iat and nbf are verified when
present as numbers; an absent claim is accepted (the required flag is
false throughout).  No other claim name is inspected. -/
def claimsValid (c : MapClaims) (now : Int) : Bool :=
  (match claimLookup c "exp" with
   | some (.num e) => decide (now < e)
   | _ => true) &&
  (match claimLookup c "iat" with
   | some (.num i) => decide (i ≤ now)
   | _ => true) &&
  (match claimLookup c "nbf" with
   | some (.num b) => decide (b ≤ now)
   | _ => true)

/-- validateJWT: reads JWT_SECRET from the environment and runs jwt.Parse
with a keyfunc that rejects any non-HMAC signing method.  jwt.Parse fails
on a malformed token string (modelled by `none`), on a keyfunc rejection,
on a bad signature, and on invalid registered claims; it returns a token
with Valid set exactly when it returns a nil error, so the Except models
both the error and the Valid flag. -/
def validateJWT (tokenString : Option Token) (env : String → Option String)
    (now : Int) : Except String Token :=
  match tokenString with
  | none => .error "token contains an invalid number of segments"
  | some token =>
    if token.method.isHMAC = false then
      .error "Unexpected signing method"
    else if token.sig ≠ (token.method, getenv env "JWT_SECRET", token.claims) then
      .error "signature is invalid"
    else if claimsValid token.claims now = false then
      .error "token is expired"
    else .ok token

/-- The account record, with the columns scanned by scanIntoAccount:
id, first_name, last_name, number, encrypted_password, balance,
created_at. -/
structure Account where
  ID : Int
  FirstName : String
  LastName : String
  Number : Int
  EncryptedPassword : String
  Balance : Int
  CreatedAt : Int
deriving DecidableEq, Repr

/-- createJWT: builds the claim set with the literal expiresAt value 15000
and the account number, reads JWT_SECRET from the environment, and signs
with jwt.SigningMethodHS256.  SignedString with an HMAC method and a
byte-slice key never fails, even for the empty key, so the result is
always ok. -/
def createJWT (env : String → Option String) (account : Account) :
    Except String Token :=
  let claims : MapClaims :=
    [("expiresAt", .num 15000), ("accountNumber", .num account.Number)]
  let secret := getenv env "JWT_SECRET"
  .ok ⟨.HS256, claims, (.HS256, secret, claims)⟩

/-- The account table behind the Storage interface. -/
structure Store where
  accounts : List Account
deriving DecidableEq, Repr

/-- PostgresStore.GetAccountById: the first row whose id matches, else an
account-not-found error. -/
def GetAccountById (s : Store) (id : Int) : Except String Account :=
  match s.accounts.find? (fun a => a.ID == id) with
  | some a => .ok a
  | none => .error ("account " ++ toString id ++ " not found")

/-- PostgresStore.GetAccountByNumber: the first row whose number matches,
else an account-number-not-found error. -/
def GetAccountByNumber (s : Store) (number : Int) : Except String Account :=
  match s.accounts.find? (fun a => a.Number == number) with
  | some a => .ok a
  | none => .error ("account number " ++ toString number ++ " not found")

/-- PostgresStore.CreateAccount: inserts the row. -/
def CreateAccount (s : Store) (a : Account) : Store :=
  ⟨s.accounts ++ [a]⟩

/-- An operation of the Storage interface, recorded as a trace element. -/
inductive StorageOp where
  | getById (id : Int)
  | getByNumber (number : Int)
  | getAll
  | create (a : Account)
  | delete (id : Int)
  | update (a : Account)
deriving DecidableEq, Repr

/-- Reads of the Storage interface: the fetch and list operations. -/
def StorageOp.isRead : StorageOp → Bool
  | .getById _ | .getByNumber _ | .getAll => true
  | _ => false

/-- The state change each Storage operation makes to the account table:
reads leave it alone, CreateAccount appends, DeleteAccount removes by id,
and UpdateAccount is a no-op in the source. -/
def StorageOp.applyOp (s : Store) : StorageOp → Store
  | .getById _ => s
  | .getByNumber _ => s
  | .getAll => s
  | .create a => CreateAccount s a
  | .delete id => ⟨s.accounts.filter (fun a => a.ID != id)⟩
  | .update _ => s

/-- Runs a trace of Storage operations against the table. -/
def applyOps (s : Store) (ops : List StorageOp) : Store :=
  ops.foldl StorageOp.applyOp s

/-- A JSON value appearing in a response body object: a number, a string,
or an encoded JWT. -/
inductive JLeaf where
  | num (n : Int)
  | str (s : String)
  | jwt (t : Token)
deriving DecidableEq, Repr

/-- A rendered HTTP response: status code plus JSON object body. -/
structure HttpResponse where
  status : Nat
  body : List (String × JLeaf)
deriving DecidableEq, Repr

/-- WriteJSON: writes the status code and encodes the value as the JSON
body. -/
def WriteJSON (status : Nat) (body : List (String × JLeaf)) : HttpResponse :=
  ⟨status, body⟩

/-- ApiError rendered through its json tag: an object with one field named
error. -/
def apiError (msg : String) : List (String × JLeaf) :=
  [("error", .str msg)]

/-- permissionDenied: WriteJSON of StatusForbidden with the permission
denied ApiError. -/
def permissionDenied : HttpResponse :=
  WriteJSON 403 (apiError "permission denied")

/-- The outcome of the withJWTAuth middleware on one request:
`authorized` means handleFunc(w, request) ran, the wrapped handler
receiving the writer and the request unchanged; `handled` means the
middleware wrote the given response and returned without invoking the
handler; `crash` is a Go panic from a failed interface type assertion. -/
inductive AuthOutcome where
  | authorized
  | handled (r : HttpResponse)
  | crash
deriving DecidableEq, Repr

/-- strconv.Atoi digit accumulation over the remaining characters. -/
def parseDigitsAux : List Char → Nat → Option Nat
  | [], acc => some acc
  | c :: cs, acc =>
    if c.isDigit then parseDigitsAux cs (acc * 10 + (c.toNat - 48))
    else none

/-- strconv.Atoi: an optional sign followed by at least one digit, within
the 64-bit int range; anything else is an error. -/
def atoi (s : String) : Except String Int :=
  let signAndRest : Int × List Char :=
    match s.data with
    | '-' :: r => (-1, r)
    | '+' :: r => (1, r)
    | r => (1, r)
  match signAndRest.2 with
  | [] => .error ("parsing " ++ s ++ ": invalid syntax")
  | cs =>
    match parseDigitsAux cs 0 with
    | none => .error ("parsing " ++ s ++ ": invalid syntax")
    | some n =>
      let v : Int := signAndRest.1 * n
      if v < -(2 ^ 63) ∨ 2 ^ 63 - 1 < v then
        .error ("parsing " ++ s ++ ": value out of range")
      else .ok v

/-- getID: reads the path variable and runs strconv.Atoi on it; a parse
failure becomes an invalid-id error. -/
def getID (idStr : String) : Except String Int :=
  match atoi idStr with
  | .ok id => .ok id
  | .error _ => .error ("invalid id given " ++ idStr)

/-- withJWTAuth: reads the x-jwt-token header (an absent or malformed
header is a token string that fails to parse, modelled by `none`), runs
validateJWT, checks token.Valid (true exactly when validateJWT returned
ok, so both guards share the error branch), extracts the path id, loads
the account by that id, and compares the accountNumber claim — read
through the unchecked assertions `token.Claims.(jwt.MapClaims)` and
`claims["accountNumber"].(float64)`, which panic when the claim is absent
or not a number — with the loaded account number.  The second component is
the trace of Storage operations performed. -/
def withJWTAuth (tokenString : Option Token) (idStr : String)
    (env : String → Option String) (now : Int) (s : Store) :
    AuthOutcome × List StorageOp :=
  match validateJWT tokenString env now with
  | .error _ => (.handled permissionDenied, [])
  | .ok token =>
    match getID idStr with
    | .error _ => (.handled (WriteJSON 403 (apiError "Invalid userId")), [])
    | .ok userId =>
      match GetAccountById s userId with
      | .error _ =>
        (.handled (WriteJSON 403 (apiError "Invalid account Id")), [.getById userId])
      | .ok account =>
        match claimLookup token.claims "accountNumber" with
        | some (.num n) =>
          if account.Number ≠ n then (.handled permissionDenied, [.getById userId])
          else (.authorized, [.getById userId])
        | _ => (.crash, [.getById userId])

/-- The login request body. -/
structure LoginRequest where
  Number : Int
  Password : String
deriving DecidableEq, Repr

/-- The account-creation request body. -/
structure CreateAccountRequest where
  FirstName : String
  LastName : String
  Password : String
deriving DecidableEq, Repr

/-- Modelled from the spec: the Credential Codec Hash, declared in the
types file of the repository, which is absent from src.  A deterministic one-way
transform that fails with InvalidInput on an empty secret; the concrete
KDF is opaque and is modelled as an injective tagging that never equals
the plaintext. -/
def Hash (secret : String) : Except String String :=
  if secret = "" then .error "InvalidInput" else .ok ("kdf:" ++ secret)

/-- Modelled from the spec: the Credential Codec Verify, declared in the
types file absent from src.  True exactly when the secret re-hashes to the
stored hash; it never throws on a mismatched hash format. -/
def Verify (secret stored : String) : Bool :=
  match Hash secret with
  | .ok h => h == stored
  | .error _ => false

/-- Modelled from the spec: Account.ValidatePassword, declared in the
types file absent from src; it verifies the plaintext against the stored
encrypted password via the Credential Codec. -/
def ValidatePassword (a : Account) (pw : String) : Bool :=
  Verify pw a.EncryptedPassword

/-- Modelled from the spec: NewAccount, declared in the types file absent
from src (only its callers are available).  Per the spec it hashes the
password through the Credential Codec and builds the account with a fresh
account-number, zero balance and a creation timestamp; the internal id is
assigned later by storage, so it is zero here.  The fresh number and the
timestamp are passed as parameters. -/
def NewAccount (first last pw : String) (number now : Int) :
    Except String Account :=
  match Hash pw with
  | .error e => .error e
  | .ok h => .ok ⟨0, first, last, number, h, 0, now⟩

/-- Modelled from the spec: the JSON rendering of Account, whose struct
tags live in the types file absent from src.  Per the spec the response
carries the internal id, the names, the account-number, the balance and
the creation timestamp, and never the secret hash. -/
def accountToJson (a : Account) : List (String × JLeaf) :=
  [("id", .num a.ID), ("firstName", .str a.FirstName),
   ("lastName", .str a.LastName), ("number", .num a.Number),
   ("balance", .num a.Balance), ("createdAt", .num a.CreatedAt)]

/-- HandleLogin: POST only; decodes the LoginRequest (a well-formed body
is assumed decoded; the decode-failure path returns that error and is not
modelled), loads the account by number, validates the password, creates
the JWT and answers 200 with LoginResponse carrying the number and the
token. -/
def HandleLogin (method : String) (req : LoginRequest) (s : Store)
    (env : String → Option String) : Except String HttpResponse :=
  if method ≠ "POST" then .error ("method not allowed " ++ method)
  else
    match GetAccountByNumber s req.Number with
    | .error e => .error e
    | .ok acc =>
      if ValidatePassword acc req.Password = false then
        .error "not authenticated"
      else
        match createJWT env acc with
        | .error e => .error e
        | .ok tok =>
          .ok (WriteJSON 200 [("number", .num acc.Number), ("token", .jwt tok)])

/-- makeHttpHandleFunc: runs the apiFunc; any returned error is rendered
as WriteJSON of StatusBadRequest with the ApiError of its message. -/
def makeHttpHandleFunc (result : Except String HttpResponse) : HttpResponse :=
  match result with
  | .ok resp => resp
  | .error e => WriteJSON 400 (apiError e)

/-- handleCreateAccount: decodes the CreateAccountRequest, calls
NewAccount, persists through Storage.CreateAccount and answers 200 with
the JSON of the account.  The fresh account number and the timestamp drawn
inside NewAccount are passed as parameters. -/
def handleCreateAccount (req : CreateAccountRequest) (s : Store)
    (number now : Int) : Except String (HttpResponse × Store) :=
  match NewAccount req.FirstName req.LastName req.Password number now with
  | .error e => .error e
  | .ok account =>
    .ok (WriteJSON 200 (accountToJson account), CreateAccount s account)

/-- NewPostgresStore: loads the .env file through godotenv, opens the
connection named by POSTGRES_URL and pings it.  The dotenv outcome and
database reachability are parameters; no other environment variable is
read. -/
def NewPostgresStore (env : String → Option String) (dotenvOk : Bool)
    (pingOk : String → Bool) : Except String Store :=
  if dotenvOk = false then .error "dotenv load failed"
  else if pingOk (getenv env "POSTGRES_URL") = false then
    .error "db unreachable"
  else .ok ⟨[]⟩

/-- The startup path of main up to the point the server starts serving:
NewPostgresStore followed by Init (CreateAccountTable, a schema statement
against the connected database with no environment reads); a failure of
either is log.Fatal.  No other check runs before the server starts. -/
def mainStartup (env : String → Option String) (dotenvOk : Bool)
    (pingOk : String → Bool) : Except String Store :=
  match NewPostgresStore env dotenvOk pingOk with
  | .error e => .error e
  | .ok store => .ok store

/-- The claim set createJWT produces for account number 1. -/
def claims1 : MapClaims :=
  [("expiresAt", .num 15000), ("accountNumber", .num 1)]

/-- The token createJWT issues for account number 1 under the secret
configured in env0. -/
def tok1 : Token := ⟨.HS256, claims1, (.HS256, "secret", claims1)⟩

/-- A reference account: id 1, number 1, the seeded names and password. -/
def account1 : Account := ⟨1, "anthony", "GG", 1, "kdf:hunter888", 0, 0⟩

/-- A store holding the reference account. -/
def store1 : Store := ⟨[account1]⟩

/-- The empty account table. -/
def emptyStore : Store := ⟨[]⟩

/-- An environment configuring only JWT_SECRET. -/
def env0 : String → Option String :=
  fun k => if k = "JWT_SECRET" then some "secret" else none

/-- An environment with no variables set. -/
def envNone : String → Option String := fun _ => none

/-- A correctly signed token whose claim set lacks accountNumber. -/
def tokNoNum : Token :=
  ⟨.HS256, [("expiresAt", .num 15000)],
   (.HS256, "secret", [("expiresAt", .num 15000)])⟩

/-- A token over the same claims signed with HS384 and the right secret. -/
def tok384 : Token := ⟨.HS384, claims1, (.HS384, "secret", claims1)⟩

/-- A token over the same claims signed with the wrong secret. -/
def tokBadKey : Token := ⟨.HS256, claims1, (.HS256, "bad", claims1)⟩

/-- A token with a non-HMAC header algorithm. -/
def tokRS : Token := ⟨.RS256, claims1, (.RS256, "secret", claims1)⟩

/-- The token createJWT issues when JWT_SECRET is unset: signed with the
empty key. -/
def tokEmptyKey : Token := ⟨.HS256, claims1, (.HS256, "", claims1)⟩


/-! ## Theorems -/

/-- If validateJWT answers ok, the parsed token is the presented one. -/
lemma validateJWT_ok (ts : Option Token) (env : String → Option String) (now : Int)
    (tk : Token) (h : validateJWT ts env now = .ok tk) : ts = some tk := by
  unfold validateJWT at h
  cases ts with
  | none => exact Except.noConfusion h
  | some token =>
    simp only at h
    split at h
    · exact Except.noConfusion h
    · split at h
      · exact Except.noConfusion h
      · split at h
        · exact Except.noConfusion h
        · injection h with h2
          rw [h2]

/-- Claim C1: on a protected request whose token validates, whose path id
parses and whose account loads, the middleware invokes the wrapped handler
exactly when the accountNumber claim equals the number of the loaded
account, and on mismatch it answers Forbidden with the permission denied
body without invoking the handler. -/
theorem auth_decision_iff_account_number_matches :
    ∀ (t : Token) (idStr : String) (env : String → Option String)
      (now : Int) (s : Store) (uid : Int) (account : Account) (n : Int),
    validateJWT (some t) env now = .ok t →
    getID idStr = .ok uid →
    GetAccountById s uid = .ok account →
    claimLookup t.claims "accountNumber" = some (.num n) →
    (((withJWTAuth (some t) idStr env now s).1 = .authorized) ↔ account.Number = n)
    ∧ (account.Number ≠ n →
        (withJWTAuth (some t) idStr env now s).1 = .handled permissionDenied) := by
  intro t idStr env now s uid account n hval hid hacc hclaim
  unfold withJWTAuth
  by_cases hn : account.Number = n <;>
    simp [hval, hid, hacc, hclaim, hn]

/-- Witness for claim C1 at the reference token, account and store. -/
theorem auth_decision_iff_account_number_matches_witness :
    (((withJWTAuth (some tok1) "1" env0 1700000000 store1).1 = .authorized)
      ↔ account1.Number = 1)
    ∧ (account1.Number ≠ 1 →
        (withJWTAuth (some tok1) "1" env0 1700000000 store1).1
          = .handled permissionDenied) :=
  auth_decision_iff_account_number_matches tok1 "1" env0 1700000000 store1 1 account1 1
    (by decide) (by decide) (by decide) (by decide)

/-- Claim C2 (evaluated at the failing input): the very token createJWT
issues carries the literal expiry instant 15000, which lies far before the
request time 1700000000, yet the middleware authorizes it — the library
validates only the registered exp claim, which createJWT never sets, so
the token never expires. -/
theorem expired_by_expiresAt_token_is_authorized :
    createJWT env0 account1 = .ok tok1
    ∧ claimLookup tok1.claims "expiresAt" = some (.num 15000)
    ∧ (15000 : Int) < 1700000000
    ∧ validateJWT (some tok1) env0 1700000000 = .ok tok1
    ∧ (withJWTAuth (some tok1) "1" env0 1700000000 store1).1 = .authorized :=
  ⟨by decide, by decide, by decide, by decide, by decide⟩

/-- Counterexample to claim C3: the login failure for a missing account
names the account number as not found, while the wrong-password failure
says not authenticated; the two bodies differ, so the responses reveal
which check failed. -/
theorem login_error_reveals_account_existence :
    makeHttpHandleFunc (HandleLogin "POST" ⟨42, "pw"⟩ emptyStore env0)
      = WriteJSON 400 (apiError "account number 42 not found")
    ∧ makeHttpHandleFunc (HandleLogin "POST" ⟨1, "wrong"⟩ store1 env0)
      = WriteJSON 400 (apiError "not authenticated")
    ∧ "account number 42 not found" ≠ "not authenticated" :=
  ⟨by decide, by decide, by decide⟩

/-- Claim C3 as amended: both login failures are rendered with the same
400 status, but the account-missing branch propagates the
account-number-not-found message of the directory while the wrong-password
branch answers not authenticated, so the bodies distinguish the two
checks. -/
theorem login_error_messages_by_branch :
    ∀ (n : Int) (pw : String) (s : Store) (env : String → Option String),
    (s.accounts.find? (fun a => a.Number == n) = none →
      makeHttpHandleFunc (HandleLogin "POST" ⟨n, pw⟩ s env)
        = WriteJSON 400 (apiError ("account number " ++ toString n ++ " not found")))
    ∧ (∀ acc, GetAccountByNumber s n = .ok acc → ValidatePassword acc pw = false →
      makeHttpHandleFunc (HandleLogin "POST" ⟨n, pw⟩ s env)
        = WriteJSON 400 (apiError "not authenticated")) := by
  intro n pw s env
  constructor
  · intro hfind
    have h1 : GetAccountByNumber s n
        = .error ("account number " ++ toString n ++ " not found") := by
      unfold GetAccountByNumber
      rw [hfind]
    unfold HandleLogin makeHttpHandleFunc
    simp [h1]
  · intro acc hacc hpw
    unfold HandleLogin makeHttpHandleFunc
    simp [hacc, hpw]

/-- Witness for the amended claim C3 at a missing account and at a wrong
password. -/
theorem login_error_messages_by_branch_witness :
    makeHttpHandleFunc (HandleLogin "POST" ⟨42, "pw"⟩ emptyStore env0)
      = WriteJSON 400 (apiError ("account number " ++ toString (42 : Int) ++ " not found"))
    ∧ makeHttpHandleFunc (HandleLogin "POST" ⟨1, "wrong"⟩ store1 env0)
      = WriteJSON 400 (apiError "not authenticated") :=
  ⟨(login_error_messages_by_branch 42 "pw" emptyStore env0).1 (by decide),
   (login_error_messages_by_branch 1 "wrong" store1 env0).2 account1
     (by decide) (by decide)⟩

/-- Counterexample to claim C4: a token over the same claims signed with
HS384 — an algorithm other than the HS256 that createJWT uses — and the
correct secret passes validation and is authorized, because the keyfunc
accepts the whole HMAC family. -/
theorem hs384_with_correct_secret_accepted :
    createJWT env0 account1 = .ok tok1 ∧ tok1.method = .HS256
    ∧ tok384.method ≠ .HS256
    ∧ validateJWT (some tok384) env0 1700000000 = .ok tok384
    ∧ (withJWTAuth (some tok384) "1" env0 1700000000 store1).1 = .authorized :=
  ⟨by decide, by decide, by decide, by decide, by decide⟩

/-- Claim C4 as amended: a token whose header declares any algorithm
outside the HMAC family is rejected with Forbidden permission denied, and
so is a token whose signature was produced with a secret different from
the configured one; an exact-algorithm match inside the HMAC family is not
enforced. -/
theorem non_hmac_or_wrong_secret_rejected :
    ∀ (t : Token) (idStr : String) (env : String → Option String)
      (now : Int) (s : Store),
    (t.method.isHMAC = false →
      withJWTAuth (some t) idStr env now s = (.handled permissionDenied, []))
    ∧ (∀ (m : SigningMethod) (sec : String) (c : MapClaims),
      t.sig = (m, sec, c) → sec ≠ getenv env "JWT_SECRET" →
      withJWTAuth (some t) idStr env now s = (.handled permissionDenied, [])) := by
  intro t idStr env now s
  constructor
  · intro hm
    unfold withJWTAuth validateJWT
    simp [hm]
  · intro m sec c hsig hne
    have hneq : t.sig ≠ (t.method, getenv env "JWT_SECRET", t.claims) := by
      rw [hsig]
      intro hco
      apply hne
      have h2 := congrArg (fun p : SigningMethod × String × MapClaims => p.2.1) hco
      simpa using h2
    unfold withJWTAuth validateJWT
    by_cases hh : t.method.isHMAC = false
    · simp [hh]
    · simp [hh, hneq]

/-- Witness for the amended claim C4 at an RS256 token and at a token
signed with the wrong secret. -/
theorem non_hmac_or_wrong_secret_rejected_witness :
    withJWTAuth (some tokRS) "1" env0 1700000000 store1
      = (.handled permissionDenied, [])
    ∧ withJWTAuth (some tokBadKey) "1" env0 1700000000 store1
      = (.handled permissionDenied, []) :=
  ⟨(non_hmac_or_wrong_secret_rejected tokRS "1" env0 1700000000 store1).1 (by decide),
   (non_hmac_or_wrong_secret_rejected tokBadKey "1" env0 1700000000 store1).2
     .HS256 "bad" claims1 (by decide) (by decide)⟩

/-- Counterexample to claim C5: with no environment variable set, the
startup path of main succeeds as long as the database is reachable, and
createJWT still produces a token — signed with the empty key — instead of
failing with a SigningError. -/
theorem startup_and_issue_succeed_without_secret :
    mainStartup envNone true (fun _ => true) = .ok ⟨[]⟩
    ∧ envNone "JWT_SECRET" = none
    ∧ createJWT envNone account1 = .ok tokEmptyKey :=
  ⟨by decide, by decide, by decide⟩

/-- Claim C5 as amended: token issuance always succeeds, whatever the
environment holds, and the startup path never consults JWT_SECRET —
removing the variable from the environment leaves the startup outcome
unchanged. -/
theorem no_secret_check_at_startup_or_issue :
    ∀ (env : String → Option String) (account : Account)
      (dotenvOk : Bool) (pingOk : String → Bool),
    (createJWT env account).isOk = true
    ∧ mainStartup (eraseKey env "JWT_SECRET") dotenvOk pingOk
        = mainStartup env dotenvOk pingOk := by
  intro env account dotenvOk pingOk
  refine ⟨rfl, ?_⟩
  unfold mainStartup NewPostgresStore getenv eraseKey
  simp

/-- Counterexample to claim C6: the identifier -5 is a negative integer,
yet getID parses it successfully and the middleware proceeds to load the
account by -5; and when parsing does fail the body says Invalid userId,
not invalid id. -/
theorem negative_id_parses_and_account_loaded :
    getID "-5" = .ok (-5)
    ∧ (withJWTAuth (some tok1) "-5" env0 1700000000 store1).2 = [.getById (-5)]
    ∧ (withJWTAuth (some tok1) "abc" env0 1700000000 store1).1
        = .handled (WriteJSON 403 (apiError "Invalid userId"))
    ∧ "Invalid userId" ≠ "invalid id" :=
  ⟨by decide, by decide, by decide, by decide⟩

/-- Claim C6 as amended: when the path identifier fails integer parsing
(sign included, so negative integers parse), the middleware answers
Forbidden with the Invalid userId body before performing any storage
operation; -5 itself parses and is not rejected at this step. -/
theorem unparsable_id_rejected_before_any_read :
    (∀ (ts : Option Token) (tk : Token) (idStr : String)
      (env : String → Option String) (now : Int) (s : Store) (e : String),
      validateJWT ts env now = .ok tk →
      getID idStr = .error e →
      withJWTAuth ts idStr env now s
        = (.handled (WriteJSON 403 (apiError "Invalid userId")), []))
    ∧ getID "-5" = .ok (-5) := by
  refine ⟨?_, by decide⟩
  intro ts tk idStr env now s e hval hid
  unfold withJWTAuth
  simp [hval, hid]

/-- Witness for the amended claim C6 at a non-numeric identifier. -/
theorem unparsable_id_rejected_before_any_read_witness :
    withJWTAuth (some tok1) "abc" env0 1700000000 store1
      = (.handled (WriteJSON 403 (apiError "Invalid userId")), []) :=
  unparsable_id_rejected_before_any_read.1 (some tok1) tok1 "abc" env0 1700000000 store1
    "invalid id given abc" (by decide) (by decide)

/-- Counterexample to claim C7: a directory not-found error and an
authentication failure are both rendered with status 400, not with the
404 and 403 classes the claim assigns them. -/
theorem auth_and_notfound_errors_rendered_400 :
    HandleLogin "POST" ⟨42, "pw"⟩ emptyStore env0 = .error "account number 42 not found"
    ∧ makeHttpHandleFunc (HandleLogin "POST" ⟨42, "pw"⟩ emptyStore env0)
        = WriteJSON 400 (apiError "account number 42 not found")
    ∧ makeHttpHandleFunc (HandleLogin "POST" ⟨1, "wrong"⟩ store1 env0)
        = WriteJSON 400 (apiError "not authenticated")
    ∧ (400 : Nat) ≠ 404 ∧ (400 : Nat) ≠ 403 :=
  ⟨by decide, by decide, by decide, by decide, by decide⟩

/-- Claim C7 as amended: every handler-level error is caught at the
request boundary and rendered as a JSON error body with status 400,
whatever the kind of the error; 403 responses come only from the auth
middleware writing directly. -/
theorem every_handler_error_rendered_400 :
    (∀ (method : String) (req : LoginRequest) (s : Store)
      (env : String → Option String) (e : String),
      HandleLogin method req s env = .error e →
      makeHttpHandleFunc (HandleLogin method req s env) = WriteJSON 400 (apiError e))
    ∧ (∀ e, makeHttpHandleFunc (.error e) = WriteJSON 400 (apiError e)) := by
  constructor
  · intro method req s env e h
    rw [h]
    rfl
  · intro e
    rfl

/-- Witness for the amended claim C7 at a method-not-allowed error. -/
theorem every_handler_error_rendered_400_witness :
    makeHttpHandleFunc (HandleLogin "GET" ⟨1, "x"⟩ emptyStore env0)
      = WriteJSON 400 (apiError "method not allowed GET") :=
  every_handler_error_rendered_400.1 "GET" ⟨1, "x"⟩ emptyStore env0
    "method not allowed GET" (by decide)

/-- Claim C8: a successful account creation answers 200 with a body whose
fields are exactly the internal id, the names, the account-number, the
balance and the creation timestamp; the rendering never reads the
encrypted password, so no form of the secret hash can appear. -/
theorem create_response_fields_and_no_hash :
    ∀ (first last pw : String) (number now : Int) (s : Store),
    pw ≠ "" →
    handleCreateAccount ⟨first, last, pw⟩ s number now
      = .ok (WriteJSON 200 (accountToJson ⟨0, first, last, number, "kdf:" ++ pw, 0, now⟩),
             CreateAccount s ⟨0, first, last, number, "kdf:" ++ pw, 0, now⟩)
    ∧ (accountToJson ⟨0, first, last, number, "kdf:" ++ pw, 0, now⟩).map Prod.fst
        = ["id", "firstName", "lastName", "number", "balance", "createdAt"]
    ∧ (∀ (a : Account) (p : String),
        accountToJson { a with EncryptedPassword := p } = accountToJson a) := by
  intro first last pw number now s hpw
  refine ⟨?_, by simp [accountToJson], fun a p => rfl⟩
  unfold handleCreateAccount NewAccount Hash
  simp [hpw]

/-- Witness for claim C8 at a concrete creation request. -/
theorem create_response_fields_and_no_hash_witness :
    handleCreateAccount ⟨"A", "B", "hunter888"⟩ emptyStore 7 0
      = .ok (WriteJSON 200 (accountToJson ⟨0, "A", "B", 7, "kdf:" ++ "hunter888", 0, 0⟩),
             CreateAccount emptyStore ⟨0, "A", "B", 7, "kdf:" ++ "hunter888", 0, 0⟩)
    ∧ (accountToJson ⟨0, "A", "B", 7, "kdf:" ++ "hunter888", 0, 0⟩).map Prod.fst
        = ["id", "firstName", "lastName", "number", "balance", "createdAt"]
    ∧ (∀ (a : Account) (p : String),
        accountToJson { a with EncryptedPassword := p } = accountToJson a) :=
  create_response_fields_and_no_hash "A" "B" "hunter888" 7 0 emptyStore (by decide)

/-- Claim C9: whatever the request and whatever the outcome, the middleware
performs only read operations on the Storage interface, at most one of
them, and replaying its trace against the account table leaves the table
identical. -/
theorem auth_performs_one_read_no_writes :
    ∀ (ts : Option Token) (idStr : String)
      (env : String → Option String) (now : Int) (s : Store),
    ((withJWTAuth ts idStr env now s).2.all StorageOp.isRead) = true
    ∧ (withJWTAuth ts idStr env now s).2.length ≤ 1
    ∧ applyOps s (withJWTAuth ts idStr env now s).2 = s := by
  intro ts idStr env now s
  unfold withJWTAuth
  cases hval : validateJWT ts env now with
  | error e => simp [applyOps]
  | ok token =>
    cases hid : getID idStr with
    | error e => simp [hid, applyOps]
    | ok uid =>
      cases hacc : GetAccountById s uid with
      | error e => simp [hid, hacc, applyOps, StorageOp.isRead, StorageOp.applyOp]
      | ok account =>
        cases hcl : claimLookup token.claims "accountNumber" with
        | none => simp [hid, hacc, hcl, applyOps, StorageOp.isRead, StorageOp.applyOp]
        | some v =>
          cases v with
          | str s2 => simp [hid, hacc, hcl, applyOps, StorageOp.isRead, StorageOp.applyOp]
          | num n =>
            by_cases hn : account.Number = n <;>
              simp [hid, hacc, hcl, hn, applyOps, StorageOp.isRead, StorageOp.applyOp]

/-- Claim C10: the claim comparison runs through an unchecked dynamic
cast, so the middleware is total — it never reaches the crash outcome —
exactly under the precondition that the validated token carries a numeric
accountNumber claim; a correctly signed token without that claim drives
the middleware to the panic. -/
theorem accountNumber_cast_totality :
    (∀ (t : Token) (idStr : String) (env : String → Option String)
      (now : Int) (s : Store) (n : Int),
      claimLookup t.claims "accountNumber" = some (.num n) →
      (withJWTAuth (some t) idStr env now s).1 ≠ .crash)
    ∧ (∀ (idStr : String) (env : String → Option String) (now : Int) (s : Store),
      (withJWTAuth none idStr env now s).1 ≠ .crash)
    ∧ (withJWTAuth (some tokNoNum) "1" env0 1700000000 store1).1 = .crash := by
  refine ⟨?_, ?_, by decide⟩
  · intro t idStr env now s n hclaim
    unfold withJWTAuth
    cases hval : validateJWT (some t) env now with
    | error e => simp
    | ok tk =>
      have htk : t = tk := by
        have h2 := validateJWT_ok (some t) env now tk hval
        injection h2
      subst htk
      cases hid : getID idStr with
      | error e => simp [hid]
      | ok uid =>
        cases hacc : GetAccountById s uid with
        | error e => simp [hid, hacc]
        | ok account =>
          by_cases hn : account.Number = n <;>
            simp [hid, hacc, hclaim, hn]
  · intro idStr env now s
    unfold withJWTAuth validateJWT
    simp

/-- Witness for claim C10 at a token that carries the numeric claim. -/
theorem accountNumber_cast_totality_witness :
    (withJWTAuth (some tok1) "1" env0 1700000000 store1).1 ≠ .crash :=
  accountNumber_cast_totality.1 tok1 "1" env0 1700000000 store1 1 (by decide)

end GoBank
